import Mathlib

/-!
Shallow embedding of the cuentica-sdk TypeScript client.

Source files embedded:
- `src/index.ts` — the `CuenticaAPI` class: constructor, the private
  `request` pipeline (URL assembly, header assembly, body assembly,
  response classification), the facade methods `getInvoices`,
  `getExpenses` and the binary variant `getInvoicePdf`.
- `src/types/index.ts` — `RequestOptions`, `RateLimitError`.

Modelling conventions: JavaScript `undefined` is `Option.none`; machine
numbers that the code only ever uses as integers (HTTP status codes,
epoch seconds, ids, page numbers) are `Nat`/`Int`; promise rejection is
`Except`; the network transport is an explicit function argument from
outbound requests to responses, and a `Response` carries the values its
readers (`headers.get`, `text()`, `json()`, `blob()`) would produce.
-/

namespace Cuentica

/-- A scalar query-parameter value, from `RequestOptions.query`'s value type
`string | number | boolean` (`src/types/index.ts` line 18); `undefined`
is modelled one level up as `Option QueryValue`. -/
inductive QueryValue where
  | strV (s : String)
  | numV (n : Int)
  | boolV (b : Bool)
deriving DecidableEq

/-- JavaScript `value.toString()` for the three scalar query value shapes
(the pipeline calls `value.toString()` at `src/index.ts` line 86). -/
def qvToString : QueryValue → String
  | .strV s => s
  | .numV n => toString n
  | .boolV true => "true"
  | .boolV false => "false"

/-- A JavaScript value usable as a request body (`body?: unknown` in
`RequestOptions`); `undefined` as absence of a body is modelled by
`Option JsValue` at the descriptor level. -/
inductive JsValue where
  | nullV
  | boolV (b : Bool)
  | numV (n : Int)
  | strV (s : String)
  | arrV (elems : List JsValue)
  | objV (fields : List (String × JsValue))

/-- JavaScript truthiness of a `JsValue` (`null`, `false`, `0` and `""`
are falsy; arrays and objects are always truthy). -/
def JsValue.truthy : JsValue → Bool
  | .nullV => false
  | .boolV b => b
  | .numV n => n != 0
  | .strV s => s != ""
  | .arrV _ => true
  | .objV _ => true

/-- JSON string escaping used by `JSON.stringify`: backslash, quote and
the common control characters get two-character escapes, other control
characters a `\u00XX` escape. -/
def jsonEscapeChar (c : Char) : String :=
  if c = '"' then "\\\""
  else if c = '\\' then "\\\\"
  else if c = '\n' then "\\n"
  else if c = '\r' then "\\r"
  else if c = '\t' then "\\t"
  else if c.toNat < 32 then
    "\\u00" ++ String.singleton (Nat.digitChar (c.toNat / 16)) ++
      String.singleton (Nat.digitChar (c.toNat % 16))
  else String.singleton c

/-- A JSON string literal, as produced by `JSON.stringify` for strings. -/
def jsonQuote (s : String) : String :=
  "\"" ++ String.join (s.toList.map jsonEscapeChar) ++ "\""

mutual

/-- Model of `JSON.stringify` on `JsValue` (the pipeline serializes the
body with `JSON.stringify(body)` at `src/index.ts` line 104). -/
def jsonStringify : JsValue → String
  | .nullV => "null"
  | .boolV true => "true"
  | .boolV false => "false"
  | .numV n => toString n
  | .strV s => jsonQuote s
  | .arrV xs => "[" ++ jsonStringifyElems xs ++ "]"
  | .objV fs => "\x7b" ++ jsonStringifyFields fs ++ "\x7d"

/-- Comma-separated serialization of array elements. -/
def jsonStringifyElems : List JsValue → String
  | [] => ""
  | [x] => jsonStringify x
  | x :: y :: xs => jsonStringify x ++ "," ++ jsonStringifyElems (y :: xs)

/-- Comma-separated serialization of object fields. -/
def jsonStringifyFields : List (String × JsValue) → String
  | [] => ""
  | [(k, v)] => jsonQuote k ++ ":" ++ jsonStringify v
  | (k, v) :: f :: fs =>
      jsonQuote k ++ ":" ++ jsonStringify v ++ "," ++ jsonStringifyFields (f :: fs)

end

/-- The UTF-8 encoding of a single character, needed because the WHATWG
`application/x-www-form-urlencoded` serializer (used by
`URLSearchParams.toString`) percent-encodes UTF-8 bytes. -/
def utf8Bytes (c : Char) : List UInt8 :=
  let n := c.toNat
  if n < 0x80 then [UInt8.ofNat n]
  else if n < 0x800 then
    [UInt8.ofNat (0xC0 ||| (n >>> 6)), UInt8.ofNat (0x80 ||| (n &&& 0x3F))]
  else if n < 0x10000 then
    [UInt8.ofNat (0xE0 ||| (n >>> 12)), UInt8.ofNat (0x80 ||| ((n >>> 6) &&& 0x3F)),
      UInt8.ofNat (0x80 ||| (n &&& 0x3F))]
  else
    [UInt8.ofNat (0xF0 ||| (n >>> 18)), UInt8.ofNat (0x80 ||| ((n >>> 12) &&& 0x3F)),
      UInt8.ofNat (0x80 ||| ((n >>> 6) &&& 0x3F)), UInt8.ofNat (0x80 ||| (n &&& 0x3F))]

/-- An uppercase hexadecimal digit. -/
def hexUpper (n : Nat) : Char :=
  if n < 10 then Char.ofNat (48 + n) else Char.ofNat (55 + n)

/-- One byte of the WHATWG `application/x-www-form-urlencoded` serializer:
ASCII alphanumerics and `*`, `-`, `.`, `_` pass through, space becomes
`+`, every other byte becomes `%XX` with uppercase hex. -/
def encodeByte (b : UInt8) : String :=
  let n := b.toNat
  if (0x41 ≤ n ∧ n ≤ 0x5A) ∨ (0x61 ≤ n ∧ n ≤ 0x7A) ∨ (0x30 ≤ n ∧ n ≤ 0x39) ∨
      n = 0x2A ∨ n = 0x2D ∨ n = 0x2E ∨ n = 0x5F then
    String.singleton (Char.ofNat n)
  else if n = 0x20 then "+"
  else "%" ++ String.singleton (hexUpper (n / 16)) ++ String.singleton (hexUpper (n % 16))

/-- `application/x-www-form-urlencoded` percent-encoding of a string, as
`URLSearchParams.toString()` applies to each key and value. -/
def formUrlEncode (s : String) : String :=
  String.join ((s.toList.flatMap utf8Bytes).map encodeByte)

/-- One `key=value` fragment of a serialized query string. -/
def renderParam (p : String × String) : String :=
  formUrlEncode p.1 ++ "=" ++ formUrlEncode p.2

/-- `URLSearchParams.toString()`: the appended `(key, value)` pairs
rendered in order, joined with `&`. -/
def formQueryString (ps : List (String × String)) : String :=
  String.intercalate "&" (ps.map renderParam)

/-- The query-appending loop of the pipeline (`src/index.ts` lines 83-89):
`Object.entries(query).forEach(([key, value]) => { if (value !== undefined)
url.searchParams.append(key, value.toString()); })`. The entries are
modelled as an ordered association list, matching JavaScript object
insertion order. -/
def appendParams (q : List (String × Option QueryValue)) : List (String × String) :=
  q.foldl
    (fun acc p =>
      match p.2 with
      | none => acc
      | some v => acc ++ [(p.1, qvToString v)])
    []

/-- `new URL(path, baseUrl)` followed by the `searchParams` appends and
`url.toString()` (`src/index.ts` lines 82-89, 101). Modelled for the
uses in this client: `baseUrl` is an origin with no trailing path and
every `path` is absolute, so resolution is concatenation; a URL whose
search parameter list is empty prints without `?`. -/
def buildUrl (baseUrl path : String) (query : Option (List (String × Option QueryValue))) :
    String :=
  let params := match query with | none => [] | some q => appendParams q
  baseUrl ++ path ++ (if params.isEmpty then "" else "?" ++ formQueryString params)

/-- HTTP verbs accepted by `RequestOptions.method`. -/
inductive Method where
  | GET
  | POST
  | PUT
  | DELETE
deriving DecidableEq

/-- `RequestOptions` (`src/types/index.ts` lines 14-19): the descriptor of
one call. `query` is an ordered mapping whose `undefined` entries are
`none`. -/
structure RequestOptions where
  method : Method
  path : String
  body : Option JsValue := none
  query : Option (List (String × Option QueryValue)) := none

/-- The outbound HTTP request the pipeline hands to `fetch`
(`src/index.ts` lines 101-105): verb, full URL, header list, and the
serialized body when one is sent. -/
structure OutboundRequest where
  method : Method
  url : String
  headers : List (String × String)
  body : Option String
deriving DecidableEq

/-- The client's immutable configuration (`CuenticaAPI`'s private fields
`token` and `baseUrl`, `src/index.ts` lines 48-49). -/
structure CuenticaAPI where
  token : String
  baseUrl : String
deriving DecidableEq

/-- Truthiness of the optional body as the pipeline tests it: `body ? ... :
...` on a possibly-`undefined` `unknown` value (`src/index.ts` lines 93,
97, 104). -/
def bodyTruthy (b : Option JsValue) : Bool :=
  match b with
  | none => false
  | some v => v.truthy

/-- Request assembly of the pipeline before dispatch (`src/index.ts` lines
82-105): URL with appended query parameters, a `Headers` literal holding
`X-AUTH-TOKEN` always and `Content-Type: application/json` exactly when a
body is sent, and `JSON.stringify(body)` as the body exactly when `body`
is truthy. -/
def CuenticaAPI.buildRequest (api : CuenticaAPI) (opts : RequestOptions) : OutboundRequest :=
  { method := opts.method
    url := buildUrl api.baseUrl opts.path opts.query
    headers :=
      ("X-AUTH-TOKEN", api.token) ::
        (if bodyTruthy opts.body then [("Content-Type", "application/json")] else [])
    body :=
      if bodyTruthy opts.body then
        match opts.body with
        | some v => some (jsonStringify v)
        | none => none
      else none }

/-- The incoming HTTP response as the pipeline observes it, generic in the
decoded payload type `α` (the `T` of `request<T>`): the status code, the
value `response.headers.get("X-RateLimit-Reset")` would return, the text
`response.text()` would resolve to, and the outcome `response.json()`
would settle with (`Except.error` models a rejected decode). -/
structure Response (α : Type) where
  status : Nat
  rateLimitReset : Option String
  bodyText : String
  jsonResult : Except String α

/-- A failure thrown by the pipeline: a `RateLimitError` carrying its
`resetTime` as milliseconds since epoch (`none` models an invalid
date from a `NaN` header conversion), a `new Error(message)`, or an
arbitrary rejection value propagated unchanged (the `response.json()`
decode failure). `RateLimitError` is `src/types/index.ts` lines 21-29. -/
inductive Thrown where
  | rateLimitError (resetTimeMs : Option Int)
  | errorMsg (message : String)
  | raw (e : String)
deriving DecidableEq

/-- ASCII whitespace, for the trimming `Number()` performs on string
input (JavaScript also trims further Unicode space characters, which a
rate-limit header never contains). -/
def isJsWhitespace (c : Char) : Bool :=
  c = ' ' || c = '\t' || c = '\n' || c = '\r'

/-- JavaScript `Number(s)` restricted to the shapes a rate-limit header
takes: surrounding whitespace is trimmed, an empty remainder converts
to `0`, a nonnegative decimal digit string to its value; `none` models
every other input (where `Number` yields `NaN` or a non-integral
float, which this client's header domain never produces). -/
def jsNumberString (s : String) : Option Nat :=
  let t := ((s.toList.dropWhile isJsWhitespace).reverse.dropWhile isJsWhitespace).reverse
  if t.isEmpty then some 0
  else if t.all Char.isDigit then
    some (t.foldl (fun a c => a * 10 + (c.toNat - 48)) 0)
  else none

/-- `Number(response.headers.get("X-RateLimit-Reset"))`: a missing header
reads as `null` and `Number(null)` is `0`. -/
def jsNumberOfHeader : Option String → Option Int
  | none => some 0
  | some s => (jsNumberString s).map Int.ofNat

/-- `response.ok` of the Fetch API: status in the inclusive range 200-299. -/
def responseOk (status : Nat) : Bool :=
  decide (200 ≤ status ∧ status ≤ 299)

/-- Status classification of the pipeline (`src/index.ts` lines 107-128),
in source order: `429` throws `RateLimitError(new Date(Number(reset
header) * 1000))`; then `!response.ok` throws `new Error("HTTP " +
status + ": " + text)`; then `204` resolves with `undefined`; otherwise
the result of `response.json()` is returned, a rejection propagating
unchanged. `Except.ok none` models the `undefined` of the 204 branch,
`Except.ok (some v)` a decoded payload. -/
def classifyResponse {α : Type} (resp : Response α) : Except Thrown (Option α) :=
  if resp.status = 429 then
    .error (.rateLimitError ((jsNumberOfHeader resp.rateLimitReset).map (fun t => t * 1000)))
  else if !(responseOk resp.status) then
    .error (.errorMsg ("HTTP " ++ toString resp.status ++ ": " ++ resp.bodyText))
  else if resp.status = 204 then
    .ok none
  else
    match resp.jsonResult with
    | .error e => .error (.raw e)
    | .ok v => .ok (some v)

/-- The private `request<T>` pipeline (`src/index.ts` lines 76-129):
assemble the outbound request, dispatch it over the transport (the
external `fetch` collaborator, passed explicitly), classify the
response. -/
def CuenticaAPI.request {α : Type} (api : CuenticaAPI) (opts : RequestOptions)
    (transport : OutboundRequest → Response α) : Except Thrown (Option α) :=
  classifyResponse (transport (api.buildRequest opts))

/-- The constructor's error message (`src/index.ts` lines 62-64). -/
def tokenRequiredMsg : String :=
  "API token is required. Either pass it to the constructor or set CUENTICA_TOKEN environment variable"

/-- The default base URL (`src/index.ts` line 57). -/
def defaultBaseUrl : String := "https://api.cuentica.com"

/-- The `CuenticaAPI` constructor (`src/index.ts` lines 57-70).
`tokenArg` is the optional `token` parameter, `envToken` the value of
`process.env.CUENTICA_TOKEN` (an external input, passed explicitly).
`token ?? process.env.CUENTICA_TOKEN` falls back only when `tokenArg`
is nullish, and `if (!authToken)` throws on a nullish or empty result.
The constructor performs no network access: it is a pure function of
its three inputs. -/
def mkCuenticaAPI (tokenArg envToken : Option String)
    (baseUrl : String := defaultBaseUrl) : Except String CuenticaAPI :=
  let authToken := match tokenArg with | some t => some t | none => envToken
  match authToken with
  | none => .error tokenRequiredMsg
  | some t => if t = "" then .error tokenRequiredMsg else .ok ⟨t, baseUrl⟩

/-- Query assembly of `getInvoices` (`src/index.ts` lines 278-286):
`const { tags, ...rest } = params; const query = { ...rest, tags:
tags?.join(",") }`. The non-`tags` entries keep their insertion order
(modelled by the association list `rest`) and `tags` is re-inserted
last, with value `undefined` when the list is absent and the
comma-joined string otherwise. -/
def getInvoicesQuery (rest : List (String × Option QueryValue))
    (tags : Option (List String)) : List (String × Option QueryValue) :=
  rest ++ [("tags", tags.map (fun ts => QueryValue.strV (String.intercalate "," ts)))]

/-- The full descriptor `getInvoices` passes to the pipeline:
`{ method: "GET", path: "/invoice", query }`. -/
def getInvoicesOptions (rest : List (String × Option QueryValue))
    (tags : Option (List String)) : RequestOptions :=
  { method := .GET, path := "/invoice", query := some (getInvoicesQuery rest tags) }

/-- Query assembly of `getExpenses` (`src/index.ts` lines 357-365),
textually identical to `getInvoices`' handling of `tags`. -/
def getExpensesQuery (rest : List (String × Option QueryValue))
    (tags : Option (List String)) : List (String × Option QueryValue) :=
  rest ++ [("tags", tags.map (fun ts => QueryValue.strV (String.intercalate "," ts)))]

/-- The response to a `getInvoicePdf` fetch: status, the text
`response.text()` would produce, and the raw body bytes `response.blob()`
would wrap. -/
structure PdfResponse where
  status : Nat
  bodyText : String
  blob : List UInt8
deriving DecidableEq

/-- Response handling of `getInvoicePdf` (`src/index.ts` lines 342-349):
`if (!response.ok) throw new Error("HTTP " + status + ": " + await
response.text()); return response.blob();` — no 429 branch, no 204
branch, no JSON decoding. -/
def getInvoicePdfResult (resp : PdfResponse) : Except Thrown (List UInt8) :=
  if !(responseOk resp.status) then
    .error (.errorMsg ("HTTP " ++ toString resp.status ++ ": " ++ resp.bodyText))
  else
    .ok resp.blob

/-! ## Helper lemmas -/

theorem appendParams_foldl (q : List (String × Option QueryValue))
    (acc : List (String × String)) :
    q.foldl
        (fun acc p =>
          match p.2 with
          | none => acc
          | some v => acc ++ [(p.1, qvToString v)])
        acc
      = acc ++ q.filterMap (fun p => p.2.map (fun v => (p.1, qvToString v))) := by
  induction q generalizing acc with
  | nil => simp
  | cons p q ih =>
    match p with
    | (k, none) => simp [ih]
    | (k, some v) => simp [ih]

theorem appendParams_filterMap (q : List (String × Option QueryValue)) :
    appendParams q = q.filterMap (fun p => p.2.map (fun v => (p.1, qvToString v))) := by
  simpa [appendParams] using appendParams_foldl q []

/-! ## Claim theorems -/

/-- C1: for every response with HTTP status 429, the request pipeline
fails with a `RateLimitError` whose reset timestamp equals the numeric
value `T` of the `X-RateLimit-Reset` header (seconds since epoch)
multiplied by 1000 (milliseconds since epoch), and this 429 branch takes
precedence over the generic non-2xx error branch: the failure is never
the generic `Error`. -/
theorem request_429_rateLimitError {α : Type} (api : CuenticaAPI) (opts : RequestOptions)
    (transport : OutboundRequest → Response α) (s : String) (T : Nat)
    (hs : (transport (api.buildRequest opts)).status = 429)
    (hh : (transport (api.buildRequest opts)).rateLimitReset = some s)
    (hT : jsNumberString s = some T) :
    api.request opts transport = .error (.rateLimitError (some ((T : Int) * 1000))) ∧
    ∀ m, api.request opts transport ≠ .error (.errorMsg m) := by
  have : api.request opts transport = .error (.rateLimitError (some ((T : Int) * 1000))) := by
    simp [CuenticaAPI.request, classifyResponse, hs, hh, jsNumberOfHeader, hT]
  exact ⟨this, fun m h => by rw [this] at h; simp at h⟩

/-- Witness for C1: a 429 response with `X-RateLimit-Reset: 1700000000`
fails with reset timestamp 1700000000000 ms. -/
theorem request_429_rateLimitError_witness :
    (CuenticaAPI.mk "tok" defaultBaseUrl).request (α := Nat)
        { method := .GET, path := "/company" }
        (fun _ => ⟨429, some "1700000000", "", Except.error "boom"⟩)
      = .error (.rateLimitError (some 1700000000000)) := by
  have h := request_429_rateLimitError (α := Nat) ⟨"tok", defaultBaseUrl⟩
    { method := .GET, path := "/company" }
    (fun _ => ⟨429, some "1700000000", "", Except.error "boom"⟩)
    "1700000000" 1700000000 rfl rfl (by rfl)
  simpa using h.1

/-- C2: for every response with a non-2xx status other than 429, the
request pipeline fails with a generic error whose message is exactly
`HTTP <status>: <body text>`. -/
theorem request_non2xx_genericError {α : Type} (api : CuenticaAPI) (opts : RequestOptions)
    (transport : OutboundRequest → Response α)
    (hok : ¬(200 ≤ (transport (api.buildRequest opts)).status ∧
      (transport (api.buildRequest opts)).status ≤ 299))
    (h429 : (transport (api.buildRequest opts)).status ≠ 429) :
    api.request opts transport =
      .error (.errorMsg ("HTTP " ++ toString (transport (api.buildRequest opts)).status ++
        ": " ++ (transport (api.buildRequest opts)).bodyText)) := by
  simp [CuenticaAPI.request, classifyResponse, h429, responseOk, hok]

/-- Witness for C2: a 500 response with body `Internal Server Error`
fails with message exactly `HTTP 500: Internal Server Error`. -/
theorem request_non2xx_genericError_witness :
    (CuenticaAPI.mk "tok" defaultBaseUrl).request (α := Nat)
        { method := .GET, path := "/company" }
        (fun _ => ⟨500, none, "Internal Server Error", Except.error "boom"⟩)
      = .error (.errorMsg "HTTP 500: Internal Server Error") :=
  request_non2xx_genericError (α := Nat) ⟨"tok", defaultBaseUrl⟩
    { method := .GET, path := "/company" }
    (fun _ => ⟨500, none, "Internal Server Error", Except.error "boom"⟩)
    (by decide) (by decide)

/-- C6: for every response with HTTP status 204, the request pipeline
succeeds and returns no value, whatever the response's headers and
whatever outcome `response.json()` would have had (the quantification
over `jsonResult` shows JSON decoding is never consulted). -/
theorem request_204_void {α : Type} (api : CuenticaAPI) (opts : RequestOptions)
    (transport : OutboundRequest → Response α)
    (hs : (transport (api.buildRequest opts)).status = 204) :
    api.request opts transport = .ok none := by
  simp [CuenticaAPI.request, classifyResponse, hs, responseOk]

/-- Witness for C6: a 204 response whose body would not even decode as
JSON still succeeds with no value. -/
theorem request_204_void_witness :
    (CuenticaAPI.mk "tok" defaultBaseUrl).request (α := Nat)
        { method := .DELETE, path := "/customer/7" }
        (fun _ => ⟨204, some "99", "", Except.error "Unexpected end of JSON input"⟩)
      = .ok none :=
  request_204_void (α := Nat) ⟨"tok", defaultBaseUrl⟩
    { method := .DELETE, path := "/customer/7" }
    (fun _ => ⟨204, some "99", "", Except.error "Unexpected end of JSON input"⟩)
    rfl

/-- C9: for every 2xx, non-204 response whose body cannot be parsed as
JSON, the request pipeline propagates the JSON-decoding failure to the
caller unchanged — the result is the very rejection value, not a
`RateLimitError`, not a generic `Error`, and not a partial payload. -/
theorem request_decodeFailure_propagated {α : Type} (api : CuenticaAPI)
    (opts : RequestOptions) (transport : OutboundRequest → Response α) (e : String)
    (hok : 200 ≤ (transport (api.buildRequest opts)).status ∧
      (transport (api.buildRequest opts)).status ≤ 299)
    (h204 : (transport (api.buildRequest opts)).status ≠ 204)
    (hj : (transport (api.buildRequest opts)).jsonResult = .error e) :
    api.request opts transport = .error (.raw e) := by
  have h429 : (transport (api.buildRequest opts)).status ≠ 429 := by
    intro h
    rw [h] at hok
    omega
  simp [CuenticaAPI.request, classifyResponse, h429, responseOk, hok, h204, hj]

/-- Witness for C9: a 200 response rejecting JSON decoding with
`Unexpected end of JSON input` fails with exactly that rejection. -/
theorem request_decodeFailure_propagated_witness :
    (200 ≤ 200 ∧ 200 ≤ 299) ∧
    (CuenticaAPI.mk "tok" defaultBaseUrl).request (α := Nat)
        { method := .GET, path := "/company" }
        (fun _ => ⟨200, none, "", Except.error "Unexpected end of JSON input"⟩)
      = .error (.raw "Unexpected end of JSON input") :=
  ⟨by decide,
    request_decodeFailure_propagated (α := Nat) ⟨"tok", defaultBaseUrl⟩
      { method := .GET, path := "/company" }
      (fun _ => ⟨200, none, "", Except.error "Unexpected end of JSON input"⟩)
      "Unexpected end of JSON input" (by decide) (by decide) rfl⟩

/-- C3: for every query-parameter mapping supplied to the request
pipeline, the appended query parameters are exactly the entries whose
value is not absent — `undefined` entries are omitted entirely — in
the order they were supplied, and a parameter whose value is the empty
string is still rendered as `key=`. -/
theorem query_exact_entries_in_order (q : List (String × Option QueryValue)) :
    appendParams q = q.filterMap (fun p => p.2.map (fun v => (p.1, qvToString v))) ∧
    ∀ k : String, renderParam (k, "") = formUrlEncode k ++ "=" := by
  refine ⟨appendParams_filterMap q, fun k => ?_⟩
  show formUrlEncode k ++ "=" ++ formUrlEncode "" = formUrlEncode k ++ "="
  have h : formUrlEncode "" = "" := rfl
  rw [h]
  exact String.append_empty _

/-- C4: `getInvoices` (and `getExpenses`) flatten a supplied tags list to
a comma-joined string before querying — `["a","b"]` yields query string
`tags=a%2Cb`, `[]` yields the present-but-empty `tags=`, and an absent
list omits the `tags` parameter entirely (the appended parameters are
those of the remaining entries alone). -/
theorem tags_flattened_commaJoined :
    (∀ rest, appendParams (getInvoicesQuery rest none) = appendParams rest ∧
      appendParams (getExpensesQuery rest none) = appendParams rest) ∧
    (∀ tags, getInvoicesQuery [] (some tags) =
      [("tags", some (QueryValue.strV (String.intercalate "," tags)))] ∧
      getExpensesQuery [] (some tags) =
      [("tags", some (QueryValue.strV (String.intercalate "," tags)))]) ∧
    formQueryString (appendParams (getInvoicesQuery [] (some ["a", "b"]))) = "tags=a%2Cb" ∧
    formQueryString (appendParams (getInvoicesQuery [] (some []))) = "tags=" ∧
    formQueryString (appendParams (getExpensesQuery [] (some ["a", "b"]))) = "tags=a%2Cb" ∧
    formQueryString (appendParams (getExpensesQuery [] (some []))) = "tags=" := by
  refine ⟨fun rest => ⟨?_, ?_⟩, fun tags => ⟨rfl, rfl⟩, rfl, rfl, rfl, rfl⟩ <;>
    simp [getInvoicesQuery, getExpensesQuery, appendParams_filterMap]

/-- C5: for every descriptor whose supplied body (if any) is a truthy
JavaScript value — as every body this client ever supplies is an object
literal — the outbound request carries a body iff one was supplied (and
then it is `JSON.stringify` of it), carries `Content-Type:
application/json` iff a body was supplied, and always carries
`X-AUTH-TOKEN` with the configured token. -/
theorem buildRequest_body_and_headers (api : CuenticaAPI) (opts : RequestOptions)
    (hb : opts.body.all JsValue.truthy = true) :
    ((api.buildRequest opts).body.isSome ↔ opts.body.isSome) ∧
    (("Content-Type", "application/json") ∈ (api.buildRequest opts).headers ↔
      opts.body.isSome) ∧
    ("X-AUTH-TOKEN", api.token) ∈ (api.buildRequest opts).headers ∧
    ∀ v, opts.body = some v → (api.buildRequest opts).body = some (jsonStringify v) := by
  match h : opts.body with
  | none =>
    simp [CuenticaAPI.buildRequest, bodyTruthy, h]
  | some v =>
    rw [h] at hb
    simp only [Option.all_some] at hb
    simp [CuenticaAPI.buildRequest, bodyTruthy, h, hb]

/-- Witness for C5: a `POST /customer` descriptor with an object body has
the serialized body, the JSON content type and the auth token; the C5
theorem applied to it yields all four conjuncts. -/
theorem buildRequest_body_and_headers_witness :
    (Option.all JsValue.truthy (some (JsValue.objV [("name", JsValue.strV "ACME")])) = true) ∧
    (((CuenticaAPI.mk "tok" defaultBaseUrl).buildRequest
        { method := .POST, path := "/customer",
          body := some (JsValue.objV [("name", JsValue.strV "ACME")]) }).body.isSome ↔
      (some (JsValue.objV [("name", JsValue.strV "ACME")])).isSome) :=
  ⟨by decide,
    (buildRequest_body_and_headers ⟨"tok", defaultBaseUrl⟩
      { method := .POST, path := "/customer",
        body := some (JsValue.objV [("name", JsValue.strV "ACME")]) }
      (by decide)).1⟩

/-- C7: constructing the client with no token argument and no
`CUENTICA_TOKEN` environment fallback fails with the configuration
error (the constructor is a pure function, so no network access is
involved); when either source provides a non-empty token, construction
succeeds and stores that token and the base address. -/
theorem constructor_token_resolution (envToken : Option String) (baseUrl : String) :
    mkCuenticaAPI none none baseUrl = .error tokenRequiredMsg ∧
    (∀ t : String, t ≠ "" → mkCuenticaAPI (some t) envToken baseUrl = .ok ⟨t, baseUrl⟩) ∧
    (∀ e : String, e ≠ "" → mkCuenticaAPI none (some e) baseUrl = .ok ⟨e, baseUrl⟩) := by
  refine ⟨rfl, fun t ht => ?_, fun e he => ?_⟩
  · simp [mkCuenticaAPI, ht]
  · simp [mkCuenticaAPI, he]

/-- Witness for C7: no token and no environment value is rejected; a
constructor token `mytoken` and an environment token `envtok` are each
accepted and stored together with the default base URL. -/
theorem constructor_token_resolution_witness :
    mkCuenticaAPI none none defaultBaseUrl = .error tokenRequiredMsg ∧
    ("mytoken" ≠ "" ∧
      mkCuenticaAPI (some "mytoken") none defaultBaseUrl = .ok ⟨"mytoken", defaultBaseUrl⟩) ∧
    ("envtok" ≠ "" ∧
      mkCuenticaAPI none (some "envtok") defaultBaseUrl = .ok ⟨"envtok", defaultBaseUrl⟩) :=
  ⟨(constructor_token_resolution none defaultBaseUrl).1,
    ⟨by decide,
      (constructor_token_resolution none defaultBaseUrl).2.1 "mytoken" (by decide)⟩,
    ⟨by decide,
      (constructor_token_resolution (some "envtok") defaultBaseUrl).2.2 "envtok" (by decide)⟩⟩

/-- C8: `getInvoicePdf` bypasses the JSON pipeline — on any non-2xx
response, 429 included, it fails with the generic `HTTP <status>:
<body text>` error and never with a `RateLimitError`; on any 2xx
response, 204 included, it returns the raw body bytes untouched. -/
theorem getInvoicePdf_bypasses_pipeline (resp : PdfResponse) :
    (¬(200 ≤ resp.status ∧ resp.status ≤ 299) →
      getInvoicePdfResult resp =
        .error (.errorMsg ("HTTP " ++ toString resp.status ++ ": " ++ resp.bodyText)) ∧
      ∀ ms, getInvoicePdfResult resp ≠ .error (.rateLimitError ms)) ∧
    (200 ≤ resp.status ∧ resp.status ≤ 299 → getInvoicePdfResult resp = .ok resp.blob) := by
  constructor
  · intro hok
    have h : getInvoicePdfResult resp =
        .error (.errorMsg ("HTTP " ++ toString resp.status ++ ": " ++ resp.bodyText)) := by
      simp [getInvoicePdfResult, responseOk, hok]
    exact ⟨h, fun ms hms => by rw [h] at hms; simp at hms⟩
  · intro hok
    simp [getInvoicePdfResult, responseOk, hok]

/-- Witness for C8: a 429 PDF response fails with the generic message
`HTTP 429: Too Many Requests`, not with a rate-limit failure. -/
theorem getInvoicePdf_bypasses_pipeline_witness :
    (¬(200 ≤ 429 ∧ 429 ≤ 299)) ∧
    getInvoicePdfResult ⟨429, "Too Many Requests", [37, 80, 68, 70]⟩
      = .error (.errorMsg "HTTP 429: Too Many Requests") :=
  ⟨by decide,
    ((getInvoicePdf_bypasses_pipeline ⟨429, "Too Many Requests", [37, 80, 68, 70]⟩).1
      (by decide)).1⟩

/-- C10: an explicitly supplied empty-string token is rejected even when
the environment holds a non-empty token — the nullish fallback fires
only for an absent argument, while the truthiness check rejects the
empty string. -/
theorem constructor_emptyToken_rejected (env baseUrl : String) (_henv : env ≠ "") :
    mkCuenticaAPI (some "") (some env) baseUrl = .error tokenRequiredMsg := by
  simp [mkCuenticaAPI]

/-- Witness for C10: an empty token argument next to the non-empty
environment token `envtok` still fails construction. -/
theorem constructor_emptyToken_rejected_witness :
    ("envtok" ≠ "") ∧
    mkCuenticaAPI (some "") (some "envtok") defaultBaseUrl = .error tokenRequiredMsg :=
  ⟨by decide, constructor_emptyToken_rejected "envtok" defaultBaseUrl (by decide)⟩

end Cuentica
